import Mathlib

/-!
Shallow embedding of the per-domain lifecycle operations of the libvirt qemu
driver (src/qemu/qemu_driver.c) together with proofs about the job-protected
state transitions they perform.

Every operation is modelled from the point where the registry lookup
(`qemuDomObjFromDomain`) has returned the VM object locked and the ACL check
has passed.  External collaborators (process lifecycle driver, monitor and
agent channels, persistence, typed-parameter allocation) are represented by
success/failure bits in an `Env` record; the driver's own control flow —
branching, job acquisition, liveness re-checks, state updates, error
reporting, event queueing, unlock ordering — is translated statement by
statement from the C source.  Each operation returns its `int` result, the
final VM object (or `none` when the C code nulls the pointer), and a trace of
the observable actions it performed, in program order.
-/

/-- Lifecycle states, after `virDomainState` in the public API. -/
inductive VirDomainState where
  | nostate
  | running
  | blocked
  | paused
  | shutdown
  | shutoff
  | crashed
  | pmsuspended
  deriving DecidableEq, Repr

/-- Pause sub-reasons, after `virDomainPausedReason` (subset used here). -/
inductive VirDomainPausedReason where
  | unknown
  | user
  | migration
  | save
  | dump
  | snapshot
  deriving DecidableEq, Repr

/-- Running sub-reasons, after `virDomainRunningReason` (subset used here). -/
inductive VirDomainRunningReason where
  | unknown
  | booted
  | unpaused
  | saveCanceled
  deriving DecidableEq, Repr

/-- Synchronous job kinds, after `enum qemuDomainJob`. -/
inductive QemuJob where
  | none
  | query
  | destroy
  | suspend
  | modify
  | abort
  | migrationOp
  deriving DecidableEq, Repr

/-- Asynchronous job kinds, after `enum qemuDomainAsyncJob`. -/
inductive QemuAsyncJob where
  | none
  | migrationOut
  | migrationIn
  | save
  | dump
  | snapshot
  deriving DecidableEq, Repr

/-- Error codes, after the `VIR_ERR_*` constants used by these operations. -/
inductive VirErrCode where
  | operationInvalid
  | operationFailed
  | operationTimeout
  | internalError
  | agentUnavailable
  deriving DecidableEq, Repr

/-- Event type constants after `virDomainEventType` (libvirt.h). -/
def VIR_DOMAIN_EVENT_SUSPENDED : Nat := 3

def VIR_DOMAIN_EVENT_RESUMED : Nat := 4

def VIR_DOMAIN_EVENT_STOPPED : Nat := 5

/-- Event detail constants after `virDomainEventSuspendedDetailType`. -/
def VIR_DOMAIN_EVENT_SUSPENDED_PAUSED : Int := 0

def VIR_DOMAIN_EVENT_SUSPENDED_MIGRATED : Int := 1

def VIR_DOMAIN_EVENT_SUSPENDED_API_ERROR : Int := 6

/-- Event detail constant after `virDomainEventResumedDetailType`. -/
def VIR_DOMAIN_EVENT_RESUMED_UNPAUSED : Int := 0

/-- Event detail constants after `virDomainEventStoppedDetailType`. -/
def VIR_DOMAIN_EVENT_STOPPED_DESTROYED : Int := 1

def VIR_DOMAIN_EVENT_STOPPED_SAVED : Int := 4

/-- Job type constants after `virDomainJobType`. -/
def VIR_DOMAIN_JOB_NONE : Nat := 0

def VIR_DOMAIN_JOB_BOUNDED : Nat := 1

def VIR_DOMAIN_JOB_UNBOUNDED : Nat := 2

/-- Progress metadata of the async job, after `virDomainJobInfo`
(`priv->job.info`).  All counters are unsigned 64-bit values in C, modelled
as `Nat` reduced mod 2^64 where arithmetic occurs. -/
structure JobInfo where
  jtype : Nat
  timeElapsed : Nat
  timeRemaining : Nat
  dataTotal : Nat
  dataProcessed : Nat
  dataRemaining : Nat
  memTotal : Nat
  memProcessed : Nat
  memRemaining : Nat
  fileTotal : Nat
  fileProcessed : Nat
  fileRemaining : Nat
  deriving DecidableEq, Repr

/-- The all-zero job info block (`memset(&priv->job.info, 0, ...)`);
`VIR_DOMAIN_JOB_NONE` is 0, so the zero block has job type NONE. -/
def zeroJobInfo : JobInfo := ⟨0, 0, 0, 0, 0, 0, 0, 0, 0, 0, 0, 0⟩

/-- Migration status block, after `qemuMonitorMigrationStatus`
(`priv->job.status`), restricted to the fields `qemuDomainGetJobStats`
reads. -/
structure MigStatus where
  downtimeSet : Bool
  downtime : Nat
  ramDuplicateSet : Bool
  ramDuplicate : Nat
  ramNormal : Nat
  ramNormalBytes : Nat
  xbzrleSet : Bool
  xbzrleCacheSize : Nat
  xbzrleBytes : Nat
  xbzrlePages : Nat
  xbzrleCacheMiss : Nat
  xbzrleOverflow : Nat
  deriving DecidableEq, Repr

/-- The VM object (`virDomainObj`) merged with its qemu driver private data
(`qemuDomainObjPrivate`), restricted to the fields the modelled operations
read or write. -/
structure Dom where
  active : Bool
  state : VirDomainState
  pausedReason : VirDomainPausedReason
  runningReason : VirDomainRunningReason
  persistent : Bool
  onPoweroffRestart : Bool
  fakeReboot : Bool
  agent : Bool
  agentError : Bool
  asyncJob : QemuAsyncJob
  dumpMemoryOnly : Bool
  abortRequested : Bool
  beingDestroyed : Bool
  jobStart : Nat
  jobInfo : JobInfo
  jobStatus : MigStatus
  deriving DecidableEq, Repr

/-- Flags of `qemuDomainShutdownFlags`: `VIR_DOMAIN_SHUTDOWN_ACPI_POWER_BTN`
and `VIR_DOMAIN_SHUTDOWN_GUEST_AGENT`. -/
structure ShutdownFlags where
  acpi : Bool
  agent : Bool
  deriving DecidableEq, Repr

/-- Flags of `qemuDomainSaveInternal`: `VIR_DOMAIN_SAVE_BYPASS_CACHE`,
`VIR_DOMAIN_SAVE_RUNNING`, `VIR_DOMAIN_SAVE_PAUSED`. -/
structure SaveFlags where
  bypassCache : Bool
  running : Bool
  paused : Bool
  deriving DecidableEq, Repr

/-- Outcomes of the external collaborators and of the lock-released windows:
each field records whether the corresponding blocking call succeeds, or what
the world looks like when the object lock is reacquired. -/
structure Env where
  beginJobOK : Bool
  activeAfterBeginJob : Bool
  beginAsyncJobOK : Bool
  endJobStillRef : Bool
  endAsyncStillRef : Bool
  stopCPUsOK : Bool
  activeAfterStopCPUs : Bool
  startCPUsOK : Bool
  startCPUsErrSet : Bool
  saveStatusOK : Bool
  getCapsOK : Bool
  killOK : Bool
  agentShutdownOK : Bool
  monitorPowerdownOK : Bool
  saveMemoryOK : Bool
  migrateCancelOK : Bool
  migrationAllowed : Bool
  parseOK : Bool
  abiOK : Bool
  formatOK : Bool
  timeOK : Bool
  timeNow : Nat
  deriving DecidableEq, Repr

/-- Observable actions of an operation, recorded in program order. -/
inductive Act where
  | lock
  | unlock
  | beginJob (kind : QemuJob)
  | endJob (stillRef : Bool)
  | beginAsyncJob (kind : QemuAsyncJob)
  | endAsyncJob (stillRef : Bool)
  | processKill (force : Bool)
  | stopCPUs (reason : VirDomainPausedReason)
  | startCPUs (reason : VirDomainRunningReason)
  | processStop
  | enterMonitor
  | exitMonitor
  | monitorSystemPowerdown
  | monitorMigrateCancel
  | enterAgent
  | exitAgent
  | agentShutdown
  | saveMemory
  | eventQueue (etype : Nat) (detail : Int)
  | saveStatus
  | setBeingDestroyed (b : Bool)
  | abortAsyncJob
  | removeInactive
  | reportError (code : VirErrCode) (msg : String)
  deriving DecidableEq, Repr

/-- Result of an administrative operation: the C `int` return value, the VM
object pointer at `cleanup` (`none` when the C code nulled it), and the
action trace. -/
structure OpResult where
  ret : Int
  vm : Option Dom
  trace : List Act
  deriving Repr

/-- Unsigned 64-bit subtraction `a - b` as done on `unsigned long long`. -/
def sub64 (a b : Nat) : Nat := (a % 2 ^ 64 + (2 ^ 64 - b % 2 ^ 64)) % 2 ^ 64

/-- Trace fragment for queueing an optional pending event. -/
def eventActs : Option (Nat × Int) → List Act
  | Option.none => []
  | Option.some (t, d) => [Act.eventQueue t d]

/-- Modelled from the spec: `qemuProcessStopCPUs` belongs to the excluded
Process Lifecycle Driver (qemu_process.c is not part of this excerpt).  Per
§4.2, a successful stop of the guest CPUs moves the domain to `paused` with
the requested sub-reason. -/
def qemuProcessStopCPUs (vm : Dom) (reason : VirDomainPausedReason) : Dom :=
  { vm with state := VirDomainState.paused, pausedReason := reason }

/-- Modelled from the spec: `qemuProcessStartCPUs` belongs to the excluded
Process Lifecycle Driver.  Per §4.2, a successful start of the guest CPUs
moves the domain to `running` with the requested sub-reason. -/
def qemuProcessStartCPUs (vm : Dom) (reason : VirDomainRunningReason) : Dom :=
  { vm with state := VirDomainState.running, runningReason := reason }

/-- Modelled from the spec: `qemuProcessStop` belongs to the excluded Process
Lifecycle Driver.  Per §4.2, stopping the hypervisor process moves the domain
to `shutoff` and deactivates it. -/
def qemuProcessStop (vm : Dom) : Dom :=
  { vm with active := false, state := VirDomainState.shutoff }

/-- Modelled from the spec: `qemuDomainAgentAvailable` lives in qemu_domain.c,
outside this excerpt.  Per §6 the agent channel "may be altogether absent";
the helper reports the agent as usable only when the channel is connected and
not in an error state. -/
def qemuDomainAgentAvailable (vm : Dom) : Bool :=
  vm.agent && !vm.agentError

/-- Modelled from the spec: `qemuDomainObjAbortAsyncJob` lives in
qemu_domain.c, outside this excerpt.  Per §4.3, `abort_async_job()` "sets the
cancellation-requested flag on the current async job". -/
def qemuDomainObjAbortAsyncJob (vm : Dom) : Dom :=
  { vm with abortRequested := true }

/-- Common tail for pre-job failures (`goto cleanup` with no job held): unlock
the object, then queue any pending event. -/
def cleanupUnlock (ret : Int) (vm : Dom) (event : Option (Nat × Int))
    (pre : List Act) : OpResult :=
  { ret := ret, vm := some vm, trace := pre ++ [Act.unlock] ++ eventActs event }

/-- Common `endjob`/`cleanup` tail of the sync-job operations:
`if (!qemuDomainObjEndJob(driver, vm)) vm = NULL;` then
`if (vm) virObjectUnlock(vm); if (event) qemuDomainEventQueue(driver, event);`.
The still-referenced result of `end_job` is modelled from the spec (§4.3):
when it is false the caller must stop using the object, so no unlock is
performed. -/
def endJobCleanup (ret : Int) (vm : Dom) (event : Option (Nat × Int))
    (pre : List Act) (env : Env) : OpResult :=
  if env.endJobStillRef then
    { ret := ret, vm := some vm,
      trace := pre ++ [Act.endJob true, Act.unlock] ++ eventActs event }
  else
    { ret := ret, vm := none,
      trace := pre ++ [Act.endJob false] ++ eventActs event }

/-- The `endAsyncJob`-then-`cleanup` tail of `qemuDomainSaveInternal`.  Note
the cleanup order of that function: the event is queued *before* the object
is unlocked.  Modelled from the spec (§4.3): `end_async_job` clears the async
slot and the progress statistics and reports whether the object is still
referenced. -/
def endAsyncTail (ret : Int) (vm : Dom) (event : Option (Nat × Int))
    (pre : List Act) (env : Env) : OpResult :=
  if env.endAsyncStillRef then
    { ret := ret,
      vm := some { vm with asyncJob := QemuAsyncJob.none, jobInfo := zeroJobInfo },
      trace := pre ++ [Act.endAsyncJob true] ++ eventActs event ++ [Act.unlock] }
  else
    { ret := ret, vm := none,
      trace := pre ++ [Act.endAsyncJob false] ++ eventActs event }

/-- Pre-job `cleanup` tail of `qemuDomainSaveInternal`: queue the event (if
any) and then unlock — in that order, as in the C source. -/
def cleanupSaveTail (ret : Int) (vm : Dom) (event : Option (Nat × Int))
    (pre : List Act) : OpResult :=
  { ret := ret, vm := some vm, trace := pre ++ eventActs event ++ [Act.unlock] }

/-- The pause reason chosen by `qemuDomainSuspend` from the current async job
(qemu_driver.c:1703-1712). -/
def suspendReason (aj : QemuAsyncJob) : VirDomainPausedReason :=
  match aj with
  | QemuAsyncJob.migrationOut => VirDomainPausedReason.migration
  | QemuAsyncJob.snapshot => VirDomainPausedReason.snapshot
  | _ => VirDomainPausedReason.user

/-- The event detail chosen by `qemuDomainSuspend` from the current async
job; −1 means no lifecycle event is created (snapshot case,
qemu_driver.c:1708). -/
def suspendEventDetail (aj : QemuAsyncJob) : Int :=
  match aj with
  | QemuAsyncJob.migrationOut => VIR_DOMAIN_EVENT_SUSPENDED_MIGRATED
  | QemuAsyncJob.snapshot => -1
  | _ => VIR_DOMAIN_EVENT_SUSPENDED_PAUSED

/-- `qemuDomainSuspend` (qemu_driver.c:1667), from the point where the lookup
returned the VM locked and the ACL check passed.  The only field that can
change while the object lock is released inside begin-job is liveness,
captured by `env.activeAfterBeginJob`. -/
def qemuDomainSuspend (vm : Dom) (env : Env) : OpResult :=
  if !vm.active then
    cleanupUnlock (-1) vm none
      [Act.lock, Act.reportError VirErrCode.operationInvalid "domain is not running"]
  else if !env.beginJobOK then
    cleanupUnlock (-1) vm none
      [Act.lock, Act.reportError VirErrCode.operationTimeout "another job is in progress"]
  else if !(vm.active && env.activeAfterBeginJob) then
    endJobCleanup (-1) { vm with active := vm.active && env.activeAfterBeginJob } none
      [Act.lock, Act.beginJob QemuJob.suspend,
       Act.reportError VirErrCode.operationInvalid "domain is not running"] env
  else if vm.state = VirDomainState.pmsuspended then
    endJobCleanup (-1) { vm with active := vm.active && env.activeAfterBeginJob } none
      [Act.lock, Act.beginJob QemuJob.suspend,
       Act.reportError VirErrCode.operationInvalid "domain is pmsuspended"] env
  else if vm.state ≠ VirDomainState.paused then
    if !env.stopCPUsOK then
      endJobCleanup (-1) { vm with active := vm.active && env.activeAfterBeginJob } none
        [Act.lock, Act.beginJob QemuJob.suspend,
         Act.stopCPUs (suspendReason vm.asyncJob)] env
    else if !env.saveStatusOK then
      endJobCleanup (-1)
        (qemuProcessStopCPUs { vm with active := vm.active && env.activeAfterBeginJob }
          (suspendReason vm.asyncJob))
        (if suspendEventDetail vm.asyncJob ≥ 0 then
           some (VIR_DOMAIN_EVENT_SUSPENDED, suspendEventDetail vm.asyncJob)
         else none)
        [Act.lock, Act.beginJob QemuJob.suspend,
         Act.stopCPUs (suspendReason vm.asyncJob), Act.saveStatus] env
    else
      endJobCleanup 0
        (qemuProcessStopCPUs { vm with active := vm.active && env.activeAfterBeginJob }
          (suspendReason vm.asyncJob))
        (if suspendEventDetail vm.asyncJob ≥ 0 then
           some (VIR_DOMAIN_EVENT_SUSPENDED, suspendEventDetail vm.asyncJob)
         else none)
        [Act.lock, Act.beginJob QemuJob.suspend,
         Act.stopCPUs (suspendReason vm.asyncJob), Act.saveStatus] env
  else if !env.saveStatusOK then
    endJobCleanup (-1) { vm with active := vm.active && env.activeAfterBeginJob } none
      [Act.lock, Act.beginJob QemuJob.suspend, Act.saveStatus] env
  else
    endJobCleanup 0 { vm with active := vm.active && env.activeAfterBeginJob } none
      [Act.lock, Act.beginJob QemuJob.suspend, Act.saveStatus] env

/-- `qemuDomainResume` (qemu_driver.c:1749), from the point where the lookup
returned the VM locked and the ACL check passed.  Note there is no liveness
check before the job: the only one sits after `qemuDomainObjBeginJob`. -/
def qemuDomainResume (vm : Dom) (env : Env) : OpResult :=
  if !env.beginJobOK then
    cleanupUnlock (-1) vm none
      [Act.lock, Act.reportError VirErrCode.operationTimeout "another job is in progress"]
  else if !(vm.active && env.activeAfterBeginJob) then
    endJobCleanup (-1) { vm with active := vm.active && env.activeAfterBeginJob } none
      [Act.lock, Act.beginJob QemuJob.modify,
       Act.reportError VirErrCode.operationInvalid "domain is not running"] env
  else if vm.state = VirDomainState.pmsuspended then
    endJobCleanup (-1) { vm with active := vm.active && env.activeAfterBeginJob } none
      [Act.lock, Act.beginJob QemuJob.modify,
       Act.reportError VirErrCode.operationInvalid "domain is pmsuspended"] env
  else if vm.state = VirDomainState.paused then
    if !env.startCPUsOK then
      if !env.startCPUsErrSet then
        endJobCleanup (-1) { vm with active := vm.active && env.activeAfterBeginJob } none
          [Act.lock, Act.beginJob QemuJob.modify,
           Act.startCPUs VirDomainRunningReason.unpaused,
           Act.reportError VirErrCode.operationFailed "resume operation failed"] env
      else
        endJobCleanup (-1) { vm with active := vm.active && env.activeAfterBeginJob } none
          [Act.lock, Act.beginJob QemuJob.modify,
           Act.startCPUs VirDomainRunningReason.unpaused] env
    else if !env.getCapsOK then
      endJobCleanup (-1)
        (qemuProcessStartCPUs { vm with active := vm.active && env.activeAfterBeginJob }
          VirDomainRunningReason.unpaused)
        (some (VIR_DOMAIN_EVENT_RESUMED, VIR_DOMAIN_EVENT_RESUMED_UNPAUSED))
        [Act.lock, Act.beginJob QemuJob.modify,
         Act.startCPUs VirDomainRunningReason.unpaused] env
    else if !env.saveStatusOK then
      endJobCleanup (-1)
        (qemuProcessStartCPUs { vm with active := vm.active && env.activeAfterBeginJob }
          VirDomainRunningReason.unpaused)
        (some (VIR_DOMAIN_EVENT_RESUMED, VIR_DOMAIN_EVENT_RESUMED_UNPAUSED))
        [Act.lock, Act.beginJob QemuJob.modify,
         Act.startCPUs VirDomainRunningReason.unpaused, Act.saveStatus] env
    else
      endJobCleanup 0
        (qemuProcessStartCPUs { vm with active := vm.active && env.activeAfterBeginJob }
          VirDomainRunningReason.unpaused)
        (some (VIR_DOMAIN_EVENT_RESUMED, VIR_DOMAIN_EVENT_RESUMED_UNPAUSED))
        [Act.lock, Act.beginJob QemuJob.modify,
         Act.startCPUs VirDomainRunningReason.unpaused, Act.saveStatus] env
  else if !env.getCapsOK then
    endJobCleanup (-1) { vm with active := vm.active && env.activeAfterBeginJob } none
      [Act.lock, Act.beginJob QemuJob.modify] env
  else if !env.saveStatusOK then
    endJobCleanup (-1) { vm with active := vm.active && env.activeAfterBeginJob } none
      [Act.lock, Act.beginJob QemuJob.modify, Act.saveStatus] env
  else
    endJobCleanup 0 { vm with active := vm.active && env.activeAfterBeginJob } none
      [Act.lock, Act.beginJob QemuJob.modify, Act.saveStatus] env

/-- The agent-selection policy of `qemuDomainShutdownFlags`
(qemu_driver.c:1839-1854): the agent is used when requested by flag, or when
no flags are given and an agent channel handle exists — and in either case
only when the channel is actually available; otherwise `useAgent` is cleared
(or, when the agent was forced, the whole call fails before the job, handled
at the call site). -/
def shutdownUseAgent (vm : Dom) (flags : ShutdownFlags) : Bool :=
  (flags.agent || (!(flags.agent || flags.acpi) && vm.agent)) &&
    qemuDomainAgentAvailable vm

/-- `qemuDomainShutdownFlags` (qemu_driver.c:1814), from the point where the
lookup returned the VM locked and the ACL check passed. -/
def qemuDomainShutdownFlags (vm : Dom) (flags : ShutdownFlags) (env : Env) : OpResult :=
  if (flags.agent && !flags.acpi) && !(qemuDomainAgentAvailable vm) then
    { ret := -1, vm := some vm,
      trace := [Act.lock,
                Act.reportError VirErrCode.agentUnavailable "guest agent is not available",
                Act.unlock] }
  else if !env.beginJobOK then
    cleanupUnlock (-1) vm none
      [Act.lock, Act.reportError VirErrCode.operationTimeout "another job is in progress"]
  else if !(vm.active && env.activeAfterBeginJob) then
    endJobCleanup (-1) { vm with active := vm.active && env.activeAfterBeginJob } none
      [Act.lock, Act.beginJob QemuJob.modify,
       Act.reportError VirErrCode.operationInvalid "domain is not running"] env
  else if !(shutdownUseAgent vm flags)
          || ((if env.agentShutdownOK then (0 : Int) else -1) < 0
              && (flags.acpi || !(flags.agent || flags.acpi))) then
    endJobCleanup (if env.monitorPowerdownOK then 0 else -1)
      { vm with active := vm.active && env.activeAfterBeginJob,
                fakeReboot := vm.onPoweroffRestart } none
      ([Act.lock, Act.beginJob QemuJob.modify]
       ++ (if shutdownUseAgent vm flags then
             [Act.enterAgent, Act.agentShutdown, Act.exitAgent] else [])
       ++ [Act.enterMonitor, Act.monitorSystemPowerdown, Act.exitMonitor]) env
  else
    endJobCleanup (if env.agentShutdownOK then 0 else -1)
      { vm with active := vm.active && env.activeAfterBeginJob } none
      ([Act.lock, Act.beginJob QemuJob.modify]
       ++ [Act.enterAgent, Act.agentShutdown, Act.exitAgent]) env

/-- `qemuDomainDestroyFlags` (qemu_driver.c:2050), from the point where the
lookup returned the VM locked and the ACL check passed.  `graceful` is
`VIR_DOMAIN_DESTROY_GRACEFUL`; when absent the kill is forced.  The
`beingDestroyed` marker is set before the kill; it is reset on the kill
failure path and after the job acquisition, but — as in the C source — *not*
on the path where the job acquisition fails. -/
def qemuDomainDestroyFlags (vm : Dom) (graceful : Bool) (env : Env) : OpResult :=
  if !env.killOK then
    cleanupUnlock (-1)
      { vm with fakeReboot := false, beingDestroyed := false } none
      [Act.lock, Act.setBeingDestroyed true, Act.processKill (!graceful),
       Act.setBeingDestroyed false]
  else if !env.beginJobOK then
    cleanupUnlock (-1)
      { vm with fakeReboot := false, beingDestroyed := true } none
      [Act.lock, Act.setBeingDestroyed true, Act.processKill (!graceful),
       Act.reportError VirErrCode.operationTimeout "another job is in progress"]
  else if !(vm.active && env.activeAfterBeginJob) then
    endJobCleanup (-1)
      { vm with fakeReboot := false, beingDestroyed := false,
                active := vm.active && env.activeAfterBeginJob } none
      [Act.lock, Act.setBeingDestroyed true, Act.processKill (!graceful),
       Act.beginJob QemuJob.destroy, Act.setBeingDestroyed false,
       Act.reportError VirErrCode.operationInvalid "domain is not running"] env
  else if !vm.persistent then
    { ret := 0, vm := none,
      trace := [Act.lock, Act.setBeingDestroyed true, Act.processKill (!graceful),
                Act.beginJob QemuJob.destroy, Act.setBeingDestroyed false,
                Act.processStop, Act.endJob env.endJobStillRef]
               ++ (if env.endJobStillRef then [Act.removeInactive] else [])
               ++ [Act.eventQueue VIR_DOMAIN_EVENT_STOPPED VIR_DOMAIN_EVENT_STOPPED_DESTROYED] }
  else
    endJobCleanup 0
      (qemuProcessStop { vm with fakeReboot := false, beingDestroyed := false,
                                 active := vm.active && env.activeAfterBeginJob })
      (some (VIR_DOMAIN_EVENT_STOPPED, VIR_DOMAIN_EVENT_STOPPED_DESTROYED))
      [Act.lock, Act.setBeingDestroyed true, Act.processKill (!graceful),
       Act.beginJob QemuJob.destroy, Act.setBeingDestroyed false, Act.processStop] env

/-- `qemuDomainAbortJob` (qemu_driver.c:11762), from the point where the
lookup returned the VM locked and the ACL check passed. -/
def qemuDomainAbortJob (vm : Dom) (env : Env) : OpResult :=
  if !env.beginJobOK then
    cleanupUnlock (-1) vm none
      [Act.lock, Act.reportError VirErrCode.operationTimeout "another job is in progress"]
  else if !(vm.active && env.activeAfterBeginJob) then
    endJobCleanup (-1) { vm with active := vm.active && env.activeAfterBeginJob } none
      [Act.lock, Act.beginJob QemuJob.abort,
       Act.reportError VirErrCode.operationInvalid "domain is not running"] env
  else if vm.asyncJob = QemuAsyncJob.none ∨ vm.dumpMemoryOnly = true then
    endJobCleanup (-1) { vm with active := vm.active && env.activeAfterBeginJob } none
      [Act.lock, Act.beginJob QemuJob.abort,
       Act.reportError VirErrCode.operationInvalid "no job is active on the domain"] env
  else if vm.asyncJob = QemuAsyncJob.migrationIn then
    endJobCleanup (-1) { vm with active := vm.active && env.activeAfterBeginJob } none
      [Act.lock, Act.beginJob QemuJob.abort,
       Act.reportError VirErrCode.operationInvalid
         "cannot abort incoming migration; use virDomainDestroy instead"] env
  else
    endJobCleanup (if env.migrateCancelOK then 0 else -1)
      (qemuDomainObjAbortAsyncJob { vm with active := vm.active && env.activeAfterBeginJob })
      none
      [Act.lock, Act.beginJob QemuJob.abort, Act.abortAsyncJob, Act.enterMonitor,
       Act.monitorMigrateCancel, Act.exitMonitor] env

/-- The rollback-and-end tail of `qemuDomainSaveInternal` (the `endjob:` label,
qemu_driver.c:3120): when the operation failed after pausing a running guest
and the guest is still alive, try to restart the CPUs; a rollback failure is
logged and surfaced as a SUSPENDED/API_ERROR event without touching `ret`. -/
def saveEndjob (ret : Int) (wasRunning : Bool) (vm : Dom)
    (event : Option (Nat × Int)) (pre : List Act) (env : Env) : OpResult :=
  if ret ≠ 0 ∧ wasRunning = true ∧ vm.active = true then
    if env.startCPUsOK then
      endAsyncTail ret (qemuProcessStartCPUs vm VirDomainRunningReason.saveCanceled) event
        (pre ++ [Act.startCPUs VirDomainRunningReason.saveCanceled]) env
    else
      endAsyncTail ret vm
        (some (VIR_DOMAIN_EVENT_SUSPENDED, VIR_DOMAIN_EVENT_SUSPENDED_API_ERROR))
        (pre ++ [Act.startCPUs VirDomainRunningReason.saveCanceled]) env
  else
    endAsyncTail ret vm event pre env

/-- The `was_running` value after the flag adjustment of
`qemuDomainSaveInternal` (qemu_driver.c:3071-3075). -/
def saveWasRunning (flags : SaveFlags) (wasRunning0 : Bool) : Bool :=
  if flags.running then true else if flags.paused then false else wasRunning0

/-- The job-info block installed when the save async job starts
(qemu_driver.c:3054-3055): zeroed statistics with job type UNBOUNDED. -/
def saveStartJobInfo : JobInfo :=
  { zeroJobInfo with jtype := VIR_DOMAIN_JOB_UNBOUNDED }

/-- The VM object right after `qemuDomainObjBeginAsyncJob(..., SAVE)`
succeeded: the async slot holds the save job and the progress block is
re-initialised. -/
def saveBeginVm (vm : Dom) : Dom :=
  { vm with asyncJob := QemuAsyncJob.save, jobInfo := saveStartJobInfo }

/-- The body of `qemuDomainSaveInternal` after the pause step: `was_running`
adjustment from flags, domain XML production, the image write
(`qemuDomainSaveMemory`, abstracted to its outcome), process stop and
transient removal on success. -/
def saveAfterPause (vm : Dom) (wasRunning0 : Bool) (pre : List Act)
    (flags : SaveFlags) (xmlinGiven : Bool) (env : Env) : OpResult :=
  if xmlinGiven ∧ env.parseOK = false then
    saveEndjob (-1) (saveWasRunning flags wasRunning0) vm none pre env
  else if xmlinGiven ∧ env.abiOK = false then
    saveEndjob (-1) (saveWasRunning flags wasRunning0) vm none pre env
  else if !env.formatOK then
    saveEndjob (-1) (saveWasRunning flags wasRunning0) vm none
      (pre ++ [Act.reportError VirErrCode.operationFailed "failed to get domain xml"]) env
  else if !env.saveMemoryOK then
    saveEndjob (-1) (saveWasRunning flags wasRunning0) vm none
      (pre ++ [Act.saveMemory]) env
  else if !vm.persistent then
    { ret := 0, vm := none,
      trace := pre ++ [Act.saveMemory, Act.processStop,
                       Act.endAsyncJob env.endAsyncStillRef]
               ++ (if env.endAsyncStillRef then [Act.removeInactive] else [])
               ++ [Act.eventQueue VIR_DOMAIN_EVENT_STOPPED VIR_DOMAIN_EVENT_STOPPED_SAVED] }
  else
    saveEndjob 0 (saveWasRunning flags wasRunning0) (qemuProcessStop vm)
      (some (VIR_DOMAIN_EVENT_STOPPED, VIR_DOMAIN_EVENT_STOPPED_SAVED))
      (pre ++ [Act.saveMemory, Act.processStop]) env

/-- `qemuDomainSaveInternal` (qemu_driver.c:3032).  The VM arrives active and
locked from the caller.  `qemuDomainSaveMemory` (the image write) and the
other collaborators are abstracted to their outcomes in `env`. -/
def qemuDomainSaveInternal (vm : Dom) (flags : SaveFlags) (xmlinGiven : Bool)
    (env : Env) : OpResult :=
  if !env.getCapsOK then
    cleanupSaveTail (-1) vm none [Act.lock]
  else if !env.migrationAllowed then
    cleanupSaveTail (-1) vm none [Act.lock]
  else if !env.beginAsyncJobOK then
    cleanupSaveTail (-1) vm none [Act.lock]
  else if vm.state = VirDomainState.running then
    if !env.stopCPUsOK then
      saveEndjob (-1) true (saveBeginVm vm) none
        [Act.lock, Act.beginAsyncJob QemuAsyncJob.save,
         Act.stopCPUs VirDomainPausedReason.save] env
    else if !(vm.active && env.activeAfterStopCPUs) then
      saveEndjob (-1) true
        { qemuProcessStopCPUs (saveBeginVm vm) VirDomainPausedReason.save with
          active := vm.active && env.activeAfterStopCPUs } none
        [Act.lock, Act.beginAsyncJob QemuAsyncJob.save,
         Act.stopCPUs VirDomainPausedReason.save,
         Act.reportError VirErrCode.internalError "guest unexpectedly quit"] env
    else
      saveAfterPause
        { qemuProcessStopCPUs (saveBeginVm vm) VirDomainPausedReason.save with
          active := vm.active && env.activeAfterStopCPUs } true
        [Act.lock, Act.beginAsyncJob QemuAsyncJob.save,
         Act.stopCPUs VirDomainPausedReason.save] flags xmlinGiven env
  else
    saveAfterPause (saveBeginVm vm) false
      [Act.lock, Act.beginAsyncJob QemuAsyncJob.save] flags xmlinGiven env

/-- Result of `qemuDomainGetJobInfo`: the C `int` return, the VM object (these
query paths never null or free it), the caller's `virDomainJobInfo` buffer
(`none` when the function failed before writing it), and the trace. -/
structure JobInfoResult where
  ret : Int
  vm : Dom
  info : Option JobInfo
  trace : List Act
  deriving Repr

/-- `qemuDomainGetJobInfo` (qemu_driver.c:11573), from the point where the
lookup returned the VM locked and the ACL check passed.  The elapsed-time
refresh is applied to the *caller's copy* of the info block. -/
def qemuDomainGetJobInfo (vm : Dom) (env : Env) : JobInfoResult :=
  if vm.active then
    if vm.asyncJob ≠ QemuAsyncJob.none ∧ vm.dumpMemoryOnly = false then
      if !env.timeOK then
        { ret := -1, vm := vm, info := some vm.jobInfo,
          trace := [Act.lock, Act.unlock] }
      else
        { ret := 0, vm := vm,
          info := some { vm.jobInfo with timeElapsed := sub64 env.timeNow vm.jobStart },
          trace := [Act.lock, Act.unlock] }
    else
      { ret := 0, vm := vm, info := some zeroJobInfo,
        trace := [Act.lock, Act.unlock] }
  else
    { ret := -1, vm := vm, info := none,
      trace := [Act.lock,
                Act.reportError VirErrCode.operationInvalid "domain is not running",
                Act.unlock] }

/-- The typed-parameter block built by `qemuDomainGetJobStats`, in insertion
order.  Memory-allocation failures of `virTypedParamsAddULLong` (which only
lead to an early `cleanup` with ret −1) are not modelled. -/
def jobStatsParams (info : JobInfo) (st : MigStatus) : List (String × Nat) :=
  [("time_elapsed", info.timeElapsed)]
  ++ (if info.jtype = VIR_DOMAIN_JOB_BOUNDED then [("time_remaining", info.timeRemaining)] else [])
  ++ (if st.downtimeSet then [("downtime", st.downtime)] else [])
  ++ [("data_total", info.dataTotal), ("data_processed", info.dataProcessed),
      ("data_remaining", info.dataRemaining),
      ("memory_total", info.memTotal), ("memory_processed", info.memProcessed),
      ("memory_remaining", info.memRemaining)]
  ++ (if st.ramDuplicateSet then
        [("memory_constant", st.ramDuplicate), ("memory_normal", st.ramNormal),
         ("memory_normal_bytes", st.ramNormalBytes)] else [])
  ++ [("disk_total", info.fileTotal), ("disk_processed", info.fileProcessed),
      ("disk_remaining", info.fileRemaining)]
  ++ (if st.xbzrleSet then
        [("compression_cache", st.xbzrleCacheSize), ("compression_bytes", st.xbzrleBytes),
         ("compression_pages", st.xbzrlePages),
         ("compression_cache_misses", st.xbzrleCacheMiss),
         ("compression_overflow", st.xbzrleOverflow)] else [])

/-- Result of `qemuDomainGetJobStats`: the C `int` return, the VM object, the
three out-parameters (`none` when the function failed before writing them),
and the trace. -/
structure JobStatsResult where
  ret : Int
  vm : Dom
  jobType : Option Nat
  params : Option (List (String × Nat))
  nparams : Option Nat
  trace : List Act
  deriving Repr

/-- `qemuDomainGetJobStats` (qemu_driver.c:11619), from the point where the
lookup returned the VM locked and the ACL check passed.  Unlike
`qemuDomainGetJobInfo`, the elapsed-time refresh writes into
`priv->job.info.timeElapsed` itself. -/
def qemuDomainGetJobStats (vm : Dom) (env : Env) : JobStatsResult :=
  if !vm.active then
    { ret := -1, vm := vm, jobType := none, params := none, nparams := none,
      trace := [Act.lock,
                Act.reportError VirErrCode.operationInvalid "domain is not running",
                Act.unlock] }
  else if vm.asyncJob = QemuAsyncJob.none ∨ vm.dumpMemoryOnly = true then
    { ret := 0, vm := vm, jobType := some VIR_DOMAIN_JOB_NONE,
      params := some [], nparams := some 0,
      trace := [Act.lock, Act.unlock] }
  else if !env.timeOK then
    { ret := -1, vm := vm, jobType := none, params := none, nparams := none,
      trace := [Act.lock, Act.unlock] }
  else
    let vm2 : Dom :=
      { vm with jobInfo := { vm.jobInfo with timeElapsed := sub64 env.timeNow vm.jobStart } }
    let par := jobStatsParams vm2.jobInfo vm2.jobStatus
    { ret := 0, vm := vm2, jobType := some vm2.jobInfo.jtype,
      params := some par, nparams := some par.length,
      trace := [Act.lock, Act.unlock] }

/-- Does the action acquire a sync or async job? -/
def isJobAcq : Act → Bool
  | Act.beginJob _ => true
  | Act.beginAsyncJob _ => true
  | _ => false

/-- Does the action change the lifecycle state of the guest? -/
def isTransition : Act → Bool
  | Act.stopCPUs _ => true
  | Act.startCPUs _ => true
  | Act.processStop => true
  | _ => false

/-- Is the action an event-queue call? -/
def isEventQueue : Act → Bool
  | Act.eventQueue _ _ => true
  | _ => false

/-- Is the action a `virReportError` call made by the modelled function? -/
def isReportError : Act → Bool
  | Act.reportError _ _ => true
  | _ => false

/-- Is the action a CPU-stop? -/
def isStopCPUs : Act → Bool
  | Act.stopCPUs _ => true
  | _ => false

/-- Is the action a CPU-start? -/
def isStartCPUs : Act → Bool
  | Act.startCPUs _ => true
  | _ => false

/-- Is the action one of the two shutdown attempts (agent command or monitor
power-down command)? -/
def isAttempt : Act → Bool
  | Act.agentShutdown => true
  | Act.monitorSystemPowerdown => true
  | _ => false

/-- Is the action a process kill or a sync-job acquisition?  Used to check
that destroy issues the kill before acquiring the destroy job. -/
def isKillOrBeginJob : Act → Bool
  | Act.processKill _ => true
  | Act.beginJob _ => true
  | _ => false

/-- The shutdown attempts of a trace, in order. -/
def attemptsOf (tr : List Act) : List Act := tr.filter isAttempt

/-- The kill and sync-job-acquisition actions of a trace, in order. -/
def killJobOf (tr : List Act) : List Act := tr.filter isKillOrBeginJob

/-- The last error reported by the function itself (the thread-local
`virReportError` slot as far as this function writes it). -/
def lastReported (tr : List Act) : Option (VirErrCode × String) :=
  tr.foldl (fun acc a => match a with
    | Act.reportError c m => some (c, m)
    | _ => acc) none

/-- Effect of one action on whether the delivering thread holds the VM
object lock.  `end_job`/`end_async_job` with still-referenced = false means
the object was disposed (the caller nulls its pointer and never unlocks);
registry removal surrenders the caller's claim on the lock as well. -/
def stepHeld (held : Bool) (a : Act) : Bool :=
  match a with
  | Act.lock => true
  | Act.unlock => false
  | Act.endJob s => held && s
  | Act.endAsyncJob s => held && s
  | Act.removeInactive => false
  | _ => held

/-- Walks a trace tracking whether the delivering thread holds the VM object
lock, and reports whether any event-queue call happens while it does. -/
def eventWhileLockedGo : Bool → List Act → Bool
  | _, [] => false
  | held, a :: rest =>
    (isEventQueue a && held) || eventWhileLockedGo (stepHeld held a) rest

/-- Was some event queued while the thread held the VM object lock? -/
def eventWhileLocked (tr : List Act) : Bool := eventWhileLockedGo false tr

/-- Is the action an unlock? -/
def isUnlock : Act → Bool
  | Act.unlock => true
  | _ => false

/-- Is the action the setting of the cancellation-requested flag or the
monitor-level migrate-cancel command? -/
def isCancelAct : Act → Bool
  | Act.abortAsyncJob => true
  | Act.monitorMigrateCancel => true
  | _ => false

/-- After the first event-queue call of the trace, only unlock actions may
remain (the shape of `qemuDomainSaveInternal`'s cleanup, which queues the
event immediately before the final unlock). -/
def afterEventOnlyUnlock : List Act → Bool
  | [] => true
  | Act.eventQueue _ _ :: rest => rest.all isUnlock
  | _ :: rest => afterEventOnlyUnlock rest

/-- Walks a trace tracking the `beingDestroyed` marker (starting from the
given initial value) and checks that the marker is true at every process-kill
and at every sync-job acquisition — i.e. throughout the kill/begin-job window
of destroy. -/
def destroyMarkerGo : Bool → List Act → Bool
  | _, [] => true
  | cur, a :: rest =>
    match a with
    | Act.setBeingDestroyed b => destroyMarkerGo b rest
    | Act.processKill _ => cur && destroyMarkerGo cur rest
    | Act.beginJob _ => cur && destroyMarkerGo cur rest
    | _ => destroyMarkerGo cur rest

/-- Walks a trace tracking whether a sync job of kind `abort` is held and
whether the monitor guard is entered, and checks: a job is acquired at most
once and is of kind abort; the cancellation flag is set and the monitor
cancel command issued only while the abort job is held; the cancel command is
issued only inside the monitor guard; and the job is ended on every path
(no job held when the trace ends). -/
def abortDisciplineGo : Bool → Bool → List Act → Bool
  | jobHeld, _, [] => !jobHeld
  | jobHeld, inMon, a :: rest =>
    match a with
    | Act.beginJob QemuJob.abort => !jobHeld && abortDisciplineGo true inMon rest
    | Act.beginJob _ => false
    | Act.endJob _ => jobHeld && abortDisciplineGo false inMon rest
    | Act.enterMonitor => jobHeld && abortDisciplineGo jobHeld true rest
    | Act.exitMonitor => inMon && abortDisciplineGo jobHeld false rest
    | Act.abortAsyncJob => jobHeld && abortDisciplineGo jobHeld inMon rest
    | Act.monitorMigrateCancel => jobHeld && inMon && abortDisciplineGo jobHeld inMon rest
    | _ => abortDisciplineGo jobHeld inMon rest

/-- Job-and-guard discipline of a full trace. -/
def abortDiscipline (tr : List Act) : Bool := abortDisciplineGo false false tr

/-- A migration status block with nothing optional set. -/
def baseStatus : MigStatus := ⟨false, 0, false, 0, 0, 0, false, 0, 0, 0, 0, 0⟩

/-- A running, active, persistent VM with an agent connected and no async
job. -/
def baseDom : Dom :=
  { active := true
    state := VirDomainState.running
    pausedReason := VirDomainPausedReason.unknown
    runningReason := VirDomainRunningReason.booted
    persistent := true
    onPoweroffRestart := false
    fakeReboot := false
    agent := true
    agentError := false
    asyncJob := QemuAsyncJob.none
    dumpMemoryOnly := false
    abortRequested := false
    beingDestroyed := false
    jobStart := 2
    jobInfo := zeroJobInfo
    jobStatus := baseStatus }

/-- An environment in which every collaborator succeeds and the VM stays
alive across every lock-released window. -/
def allOkEnv : Env :=
  { beginJobOK := true
    activeAfterBeginJob := true
    beginAsyncJobOK := true
    endJobStillRef := true
    endAsyncStillRef := true
    stopCPUsOK := true
    activeAfterStopCPUs := true
    startCPUsOK := true
    startCPUsErrSet := true
    saveStatusOK := true
    getCapsOK := true
    killOK := true
    agentShutdownOK := true
    monitorPowerdownOK := true
    saveMemoryOK := true
    migrateCancelOK := true
    migrationAllowed := true
    parseOK := true
    abiOK := true
    formatOK := true
    timeOK := true
    timeNow := 7 }

/-- A VM paused for migration: the input of the C1 counterexample. -/
def pausedMigDom : Dom :=
  { baseDom with state := VirDomainState.paused,
                 pausedReason := VirDomainPausedReason.migration }

/-- Environment in which the destroy job acquisition fails (another job holds
the slot past the timeout): the input of the C3 counterexample. -/
def beginFailEnv : Env := { allOkEnv with beginJobOK := false }

/-- A VM with an outbound migration async job in progress: the input of the
C7 counterexample and the C9 witness. -/
def migOutDom : Dom := { baseDom with asyncJob := QemuAsyncJob.migrationOut }

/-- Environment in which the image write of save fails but everything else
succeeds: the C5 witness input. -/
def saveFailEnv : Env := { allOkEnv with saveMemoryOK := false }

/-- Environment in which both the image write and the rollback CPU start
fail. -/
def saveFailResumeFailEnv : Env :=
  { allOkEnv with saveMemoryOK := false, startCPUsOK := false }

/-- Environment in which the VM dies while the caller waits in begin-job. -/
def diedEnv : Env := { allOkEnv with activeAfterBeginJob := false }

/-- Environment in which the process kill fails. -/
def killFailEnv : Env := { allOkEnv with killOK := false }

/-- The outcome §4.2/§4.5 requires of a job-protected operation that finds
the VM inactive after acquiring its job: the call fails, the last error it
reported is OperationInvalid "domain is not running", the lifecycle state and
pause reason are untouched, and no state transition or lifecycle event is
performed. -/
def deadAfterJob (r : OpResult) (vm : Dom) : Prop :=
  r.ret = -1 ∧
  lastReported r.trace = some (VirErrCode.operationInvalid, "domain is not running") ∧
  (∀ v, r.vm = some v → v.state = vm.state ∧ v.pausedReason = vm.pausedReason) ∧
  r.trace.all (fun a => !(isTransition a || isEventQueue a)) = true

/-- Splitting `eventWhileLockedGo` across an append: the right part starts
from the lock state the left part ends in. -/
theorem eventWhileLockedGo_append (xs : List Act) : ∀ (held : Bool) (ys : List Act),
    eventWhileLockedGo held (xs ++ ys) =
      (eventWhileLockedGo held xs ||
       eventWhileLockedGo (xs.foldl stepHeld held) ys) := by
  induction xs with
  | nil => intro held ys; simp [eventWhileLockedGo]
  | cons a rest ih =>
      intro held ys
      simp [eventWhileLockedGo, ih, Bool.or_assoc]

/-- A trace with no event-queue call never queues an event while locked. -/
theorem eventWhileLockedGo_no_event (xs : List Act) : ∀ held : Bool,
    xs.all (fun a => !isEventQueue a) = true → eventWhileLockedGo held xs = false := by
  induction xs with
  | nil => intro held _; rfl
  | cons a rest ih =>
      intro held h
      simp only [List.all_cons, Bool.and_eq_true, Bool.not_eq_true'] at h
      simp [eventWhileLockedGo, h.1, ih _ h.2]

/-- A `cleanup` that unlocks before queueing the event is safe whenever the
preceding trace queued no event. -/
theorem eventWhileLocked_cleanupUnlock (ret : Int) (v : Dom) (e : Option (Nat × Int))
    (pre : List Act) (h : pre.all (fun a => !isEventQueue a) = true) :
    eventWhileLockedGo false (cleanupUnlock ret v e pre).trace = false := by
  cases e <;>
    simp [cleanupUnlock, eventWhileLockedGo_append,
          eventWhileLockedGo_no_event _ _ h, eventWhileLockedGo, stepHeld,
          eventActs, isEventQueue]

/-- The common `endjob`/`cleanup` tail is safe whenever the preceding trace
queued no event: either the object is unlocked before the event-queue call,
or `end_job` reported it gone and no lock exists. -/
theorem eventWhileLocked_endJobCleanup (ret : Int) (v : Dom) (e : Option (Nat × Int))
    (pre : List Act) (env : Env) (h : pre.all (fun a => !isEventQueue a) = true) :
    eventWhileLockedGo false (endJobCleanup ret v e pre env).trace = false := by
  cases hE : env.endJobStillRef <;> cases e <;>
    simp [endJobCleanup, hE, eventWhileLockedGo_append,
          eventWhileLockedGo_no_event _ _ h, eventWhileLockedGo, stepHeld,
          eventActs, isEventQueue]

/-- A trace prefix with no event-queue call does not affect
`afterEventOnlyUnlock`. -/
theorem afterEventOnlyUnlock_no_event_prefix (xs : List Act) : ∀ ys : List Act,
    xs.all (fun a => !isEventQueue a) = true →
    afterEventOnlyUnlock (xs ++ ys) = afterEventOnlyUnlock ys := by
  induction xs with
  | nil => intro ys _; rfl
  | cons a rest ih =>
      intro ys h
      simp only [List.all_cons, Bool.and_eq_true, Bool.not_eq_true'] at h
      obtain ⟨h1, h2⟩ := h
      cases a <;>
        first
          | exact ih ys h2
          | simp [isEventQueue] at h1

/-- The save pre-job cleanup queues its event (if any) immediately before the
final unlock. -/
theorem afterEvent_cleanupSaveTail (ret : Int) (v : Dom) (e : Option (Nat × Int))
    (pre : List Act) (h : pre.all (fun a => !isEventQueue a) = true) :
    afterEventOnlyUnlock (cleanupSaveTail ret v e pre).trace = true := by
  cases e <;>
    simp [cleanupSaveTail, afterEventOnlyUnlock_no_event_prefix _ _ h, eventActs,
          afterEventOnlyUnlock, isUnlock]

/-- The save `endAsyncJob`/`cleanup` tail queues its event (if any)
immediately before the final unlock (or after the object is gone). -/
theorem afterEvent_endAsyncTail (ret : Int) (v : Dom) (e : Option (Nat × Int))
    (pre : List Act) (env : Env) (h : pre.all (fun a => !isEventQueue a) = true) :
    afterEventOnlyUnlock (endAsyncTail ret v e pre env).trace = true := by
  cases hE : env.endAsyncStillRef <;> cases e <;>
    simp [endAsyncTail, hE, afterEventOnlyUnlock_no_event_prefix _ _ h, eventActs,
          afterEventOnlyUnlock, isUnlock]

/-- The save rollback tail preserves the event-then-unlock cleanup shape. -/
theorem afterEvent_saveEndjob (ret : Int) (wr : Bool) (v : Dom)
    (e : Option (Nat × Int)) (pre : List Act) (env : Env)
    (h : pre.all (fun a => !isEventQueue a) = true) :
    afterEventOnlyUnlock (saveEndjob ret wr v e pre env).trace = true := by
  unfold saveEndjob
  split
  · split <;>
      (refine afterEvent_endAsyncTail _ _ _ _ _ ?_
       simpa [List.all_append, isEventQueue] using h)
  · exact afterEvent_endAsyncTail _ _ _ _ _ h

/-- The whole post-pause body of save preserves the event-then-unlock cleanup
shape. -/
theorem afterEvent_saveAfterPause (v : Dom) (wr : Bool) (pre : List Act)
    (flags : SaveFlags) (xg : Bool) (env : Env)
    (h : pre.all (fun a => !isEventQueue a) = true) :
    afterEventOnlyUnlock (saveAfterPause v wr pre flags xg env).trace = true := by
  unfold saveAfterPause
  split
  · exact afterEvent_saveEndjob _ _ _ _ _ _ h
  · split
    · exact afterEvent_saveEndjob _ _ _ _ _ _ h
    · split
      · refine afterEvent_saveEndjob _ _ _ _ _ _ ?_
        simpa [List.all_append, isEventQueue] using h
      · split
        · refine afterEvent_saveEndjob _ _ _ _ _ _ ?_
          simpa [List.all_append, isEventQueue] using h
        · split
          · cases hE : env.endAsyncStillRef <;>
              simp [hE, afterEventOnlyUnlock_no_event_prefix _ _ h,
                    afterEventOnlyUnlock, isUnlock]
          · refine afterEvent_saveEndjob _ _ _ _ _ _ ?_
            simpa [List.all_append, isEventQueue] using h

/-- C1 counterexample.  `pausedMigDom` is active and already `paused` with
reason `migration`; the caller's suspend has no async job in progress, so the
requested pause reason is `user` (qemu_driver.c:1710), which differs from the
current reason.  The claim predicts the call succeeds *and updates the
recorded pause reason to `user`*; the code succeeds but leaves the reason at
`migration`, because `qemuProcessStopCPUs` — the only place the reason is
written — is skipped when the state is already `paused`
(qemu_driver.c:1719). -/
theorem c1_suspend_reason_not_updated :
    (qemuDomainSuspend pausedMigDom allOkEnv).ret = 0 ∧
    (qemuDomainSuspend pausedMigDom allOkEnv).vm.map Dom.pausedReason =
      some VirDomainPausedReason.migration ∧
    VirDomainPausedReason.migration ≠ VirDomainPausedReason.user := by
  decide

/-- C1 (amended): suspending a VM that is already `paused` succeeds (returns
0, provided the status file write succeeds) and is a no-op: the pause reason
is left unchanged whether or not it matches the requested reason, the CPUs
are not stopped again, and no lifecycle event is emitted. -/
theorem qemuDomainSuspend_already_paused (vm : Dom) (env : Env)
    (hA : vm.active = true) (hP : vm.state = VirDomainState.paused)
    (hBJ : env.beginJobOK = true) (hA2 : env.activeAfterBeginJob = true)
    (hSS : env.saveStatusOK = true) :
    (qemuDomainSuspend vm env).ret = 0 ∧
    (∀ v, (qemuDomainSuspend vm env).vm = some v →
        v.pausedReason = vm.pausedReason ∧ v.state = VirDomainState.paused) ∧
    (qemuDomainSuspend vm env).trace.all (fun a => !isStopCPUs a) = true ∧
    (qemuDomainSuspend vm env).trace.all (fun a => !isEventQueue a) = true := by
  cases hE : env.endJobStillRef <;>
    simp [qemuDomainSuspend, endJobCleanup, eventActs, hA, hP, hBJ, hA2, hSS, hE,
          isStopCPUs, isEventQueue]

/-- C1 witness: a VM paused for `migration` is suspended (requested reason
`user`): the call succeeds and the reason is still `migration`. -/
theorem c1_suspend_already_paused_witness :
    (qemuDomainSuspend pausedMigDom allOkEnv).ret = 0 ∧
    (∀ v, (qemuDomainSuspend pausedMigDom allOkEnv).vm = some v →
        v.pausedReason = pausedMigDom.pausedReason ∧ v.state = VirDomainState.paused) := by
  have h := qemuDomainSuspend_already_paused pausedMigDom allOkEnv rfl rfl rfl rfl rfl
  exact ⟨h.1, h.2.1⟩

/-- C2: every modelled job-protected operation (suspend, resume, destroy,
abort-job, shutdown) re-checks `virDomainObjIsActive` after acquiring its
job; when the VM went inactive while the caller's lock was released inside
begin-job, the operation returns −1 with an OperationInvalid
"domain is not running" error, leaves the lifecycle state and pause reason
untouched, and performs no state transition and queues no event.  (For
destroy the process kill has already been issued before the job — by design,
see C3 — but no state transition is performed.)  The shutdown conjunct
assumes the pre-job agent-forced bail-out does not fire. -/
theorem jobProtected_liveness_recheck (vm : Dom) (g : Bool) (sf : ShutdownFlags)
    (env : Env)
    (hA : vm.active = true) (hBJ : env.beginJobOK = true)
    (hA2 : env.activeAfterBeginJob = false) (hK : env.killOK = true)
    (hAg : sf.agent = false ∨ (vm.agent = true ∧ vm.agentError = false)) :
    deadAfterJob (qemuDomainSuspend vm env) vm ∧
    deadAfterJob (qemuDomainResume vm env) vm ∧
    deadAfterJob (qemuDomainDestroyFlags vm g env) vm ∧
    deadAfterJob (qemuDomainAbortJob vm env) vm ∧
    deadAfterJob (qemuDomainShutdownFlags vm sf env) vm := by
  obtain ⟨sfa, sfg⟩ := sf
  refine ⟨?_, ?_, ?_, ?_, ?_⟩ <;>
  · cases hE : env.endJobStillRef <;>
    rcases hAg with hAg | ⟨hAg1, hAg2⟩ <;>
    cases sfa <;> cases sfg <;>
      simp_all [qemuDomainSuspend, qemuDomainResume, qemuDomainDestroyFlags,
                qemuDomainAbortJob, qemuDomainShutdownFlags, qemuDomainAgentAvailable,
                deadAfterJob, endJobCleanup, cleanupUnlock, eventActs, lastReported,
                isTransition, isEventQueue]

/-- C2 witness: a running VM that dies while the suspend caller waits in
begin-job makes suspend fail with "domain is not running" and no
transition. -/
theorem c2_liveness_recheck_witness :
    (qemuDomainSuspend baseDom diedEnv).ret = -1 ∧
    lastReported (qemuDomainSuspend baseDom diedEnv).trace =
      some (VirErrCode.operationInvalid, "domain is not running") ∧
    (qemuDomainDestroyFlags baseDom false diedEnv).ret = -1 := by
  have h := jobProtected_liveness_recheck baseDom false ⟨false, false⟩ diedEnv
    rfl rfl rfl rfl (Or.inl rfl)
  exact ⟨h.1.1, h.1.2.1, h.2.2.1.1⟩

/-- C3 counterexample.  When the kill succeeds but the destroy-job
acquisition fails (`qemuDomainObjBeginJob < 0`, qemu_driver.c:2095), the
code jumps to `cleanup` without resetting `priv->beingDestroyed`
(the `priv->beingDestroyed = false;` at qemu_driver.c:2098 sits *after* the
begin-job call and is skipped by the goto), so this exit path leaves the
marker true — refuting "the marker is reset to false on every exit path". -/
theorem c3_marker_left_set_on_beginjob_failure :
    baseDom.beingDestroyed = false ∧
    (qemuDomainDestroyFlags baseDom false beginFailEnv).ret = -1 ∧
    (qemuDomainDestroyFlags baseDom false beginFailEnv).vm.map Dom.beingDestroyed =
      some true := by
  decide

/-- C3 (amended): destroy sets the "being destroyed" marker before killing
the process and keeps it true through the whole kill/begin-job window; the
process kill is issued strictly before the destroy job is acquired; and the
marker is reset to false when the kill fails and after the destroy job has
been acquired — but it is left true on the exit path where the job
acquisition itself fails. -/
theorem qemuDomainDestroyFlags_marker (vm : Dom) (graceful : Bool) (env : Env) :
    destroyMarkerGo vm.beingDestroyed (qemuDomainDestroyFlags vm graceful env).trace = true ∧
    (killJobOf (qemuDomainDestroyFlags vm graceful env).trace =
       [Act.processKill (!graceful)] ∨
     killJobOf (qemuDomainDestroyFlags vm graceful env).trace =
       [Act.processKill (!graceful), Act.beginJob QemuJob.destroy]) ∧
    (env.killOK = false →
      ∀ v, (qemuDomainDestroyFlags vm graceful env).vm = some v →
        v.beingDestroyed = false) ∧
    (env.killOK = true → env.beginJobOK = true →
      ∀ v, (qemuDomainDestroyFlags vm graceful env).vm = some v →
        v.beingDestroyed = false) ∧
    (env.killOK = true → env.beginJobOK = false →
      ∀ v, (qemuDomainDestroyFlags vm graceful env).vm = some v →
        v.beingDestroyed = true) := by
  cases hK : env.killOK <;> cases hB : env.beginJobOK <;>
  cases hE : env.endJobStillRef <;> cases hAA : env.activeAfterBeginJob <;>
  cases hAc : vm.active <;> cases hP : vm.persistent <;>
    simp [qemuDomainDestroyFlags, qemuProcessStop, endJobCleanup, cleanupUnlock,
          eventActs, destroyMarkerGo, killJobOf, isKillOrBeginJob,
          hK, hB, hE, hAA, hAc, hP]

/-- C3 witness: with a failing kill the marker ends false, with a successful
destroy it ends false, and in a full successful destroy of a persistent VM
the marker was true at the kill and at the job acquisition. -/
theorem c3_marker_witness :
    (∀ v, (qemuDomainDestroyFlags baseDom false killFailEnv).vm = some v →
        v.beingDestroyed = false) ∧
    destroyMarkerGo baseDom.beingDestroyed
      (qemuDomainDestroyFlags baseDom false allOkEnv).trace = true ∧
    (∀ v, (qemuDomainDestroyFlags baseDom false allOkEnv).vm = some v →
        v.beingDestroyed = false) := by
  refine ⟨(qemuDomainDestroyFlags_marker baseDom false killFailEnv).2.2.1 rfl,
          (qemuDomainDestroyFlags_marker baseDom false allOkEnv).1,
          (qemuDomainDestroyFlags_marker baseDom false allOkEnv).2.2.2.1 rfl rfl⟩

/-- C4: the attempt policy of graceful shutdown.  Writing `agentRequested`
for the GUEST_AGENT flag, `acpiRequested` for the ACPI flag, and `available`
for a connected, non-errored agent channel: when only the agent flag is set
and the agent is unavailable the call fails with no attempt at all (no
fallback to the monitor); otherwise the attempts made are exactly an agent
attempt — iff the agent is selected (requested by flag, or no flags and an
agent channel present, and in either case available) — followed by a monitor
power-down attempt iff the agent was not used, or the agent attempt failed
and ACPI was requested or no flags were given.  The two attempts are
sequential in that order, never raced. -/
theorem qemuDomainShutdownFlags_agent_first (vm : Dom) (flags : ShutdownFlags)
    (env : Env)
    (hA : vm.active = true) (hBJ : env.beginJobOK = true)
    (hA2 : env.activeAfterBeginJob = true) :
    ((flags.agent && !flags.acpi) = true ∧ qemuDomainAgentAvailable vm = false →
      (qemuDomainShutdownFlags vm flags env).ret = -1 ∧
      attemptsOf (qemuDomainShutdownFlags vm flags env).trace = []) ∧
    (¬((flags.agent && !flags.acpi) = true ∧ qemuDomainAgentAvailable vm = false) →
      attemptsOf (qemuDomainShutdownFlags vm flags env).trace =
        (if (flags.agent || (!(flags.agent || flags.acpi) && vm.agent))
            && qemuDomainAgentAvailable vm = true
         then [Act.agentShutdown] else [])
        ++ (if (!((flags.agent || (!(flags.agent || flags.acpi) && vm.agent))
                  && qemuDomainAgentAvailable vm)
                || (!env.agentShutdownOK && (flags.acpi || !(flags.agent || flags.acpi)))) = true
            then [Act.monitorSystemPowerdown] else [])) := by
  obtain ⟨sfa, sfg⟩ := flags
  cases sfa <;> cases sfg <;>
  cases hAg : vm.agent <;> cases hAgE : vm.agentError <;>
  cases hSh : env.agentShutdownOK <;> cases hE : env.endJobStillRef <;>
    simp [qemuDomainShutdownFlags, shutdownUseAgent, qemuDomainAgentAvailable,
          endJobCleanup, cleanupUnlock, eventActs, attemptsOf, isAttempt,
          hA, hBJ, hA2, hAg, hAgE, hSh, hE]

/-- C4 witness: with no flags and a healthy connected agent, only the agent
attempt is made when it succeeds; with only the agent flag set and the agent
channel gone, the call fails with no attempt. -/
theorem c4_shutdown_policy_witness :
    attemptsOf (qemuDomainShutdownFlags baseDom ⟨false, false⟩ allOkEnv).trace =
      [Act.agentShutdown] ∧
    (qemuDomainShutdownFlags { baseDom with agent := false } ⟨false, true⟩ allOkEnv).ret = -1 ∧
    attemptsOf (qemuDomainShutdownFlags { baseDom with agent := false }
      ⟨false, true⟩ allOkEnv).trace = [] := by
  have h1 := (qemuDomainShutdownFlags_agent_first baseDom ⟨false, false⟩ allOkEnv
    rfl rfl rfl).2 (by decide)
  have h2 := (qemuDomainShutdownFlags_agent_first { baseDom with agent := false }
    ⟨false, true⟩ allOkEnv rfl rfl rfl).1 (by decide)
  refine ⟨?_, h2.1, h2.2⟩
  simpa using h1

/-- C5: when save pauses a running guest and the image write then fails, the
`endjob:` block attempts to restart the guest CPUs (rollback), provided the
VM is still active; the call still returns −1 from the original failure, and
the save function itself reports no error of its own after the failing step
(so the caller sees the image write's error, not a rollback error — the
rollback failure produces only a warning); when the rollback itself fails, a
SUSPENDED/API_ERROR lifecycle event is queued in addition, and when it
succeeds no event is queued at all. -/
theorem qemuDomainSaveInternal_rollback (vm : Dom) (flags : SaveFlags) (env : Env)
    (hA : vm.active = true) (hR : vm.state = VirDomainState.running)
    (hCaps : env.getCapsOK = true) (hMig : env.migrationAllowed = true)
    (hBJ : env.beginAsyncJobOK = true) (hStop : env.stopCPUsOK = true)
    (hA2 : env.activeAfterStopCPUs = true) (hFmt : env.formatOK = true)
    (hMem : env.saveMemoryOK = false) (hNp : flags.paused = false) :
    (qemuDomainSaveInternal vm flags false env).ret = -1 ∧
    Act.startCPUs VirDomainRunningReason.saveCanceled ∈
      (qemuDomainSaveInternal vm flags false env).trace ∧
    (qemuDomainSaveInternal vm flags false env).trace.all
      (fun a => !isReportError a) = true ∧
    (env.startCPUsOK = true →
      (qemuDomainSaveInternal vm flags false env).trace.all
        (fun a => !isEventQueue a) = true) ∧
    (env.startCPUsOK = false →
      Act.eventQueue VIR_DOMAIN_EVENT_SUSPENDED VIR_DOMAIN_EVENT_SUSPENDED_API_ERROR ∈
        (qemuDomainSaveInternal vm flags false env).trace) := by
  obtain ⟨fb, fr, fp⟩ := flags
  cases fr <;> cases hSt : env.startCPUsOK <;> cases hEA : env.endAsyncStillRef <;>
    simp_all [qemuDomainSaveInternal, saveAfterPause, saveEndjob, saveWasRunning,
              saveBeginVm, endAsyncTail, cleanupSaveTail, eventActs,
              qemuProcessStopCPUs, qemuProcessStartCPUs, isReportError, isEventQueue]

/-- C5 witness: concrete save runs in which the image write fails — with a
working rollback the call returns −1, restarts the CPUs and queues no event;
with a failing rollback it still returns −1 and queues the
SUSPENDED/API_ERROR event. -/
theorem c5_save_rollback_witness :
    (qemuDomainSaveInternal baseDom ⟨false, false, false⟩ false saveFailEnv).ret = -1 ∧
    Act.startCPUs VirDomainRunningReason.saveCanceled ∈
      (qemuDomainSaveInternal baseDom ⟨false, false, false⟩ false saveFailEnv).trace ∧
    ((qemuDomainSaveInternal baseDom ⟨false, false, false⟩ false saveFailEnv).trace.all
      (fun a => !isEventQueue a) = true) ∧
    Act.eventQueue VIR_DOMAIN_EVENT_SUSPENDED VIR_DOMAIN_EVENT_SUSPENDED_API_ERROR ∈
      (qemuDomainSaveInternal baseDom ⟨false, false, false⟩ false saveFailResumeFailEnv).trace := by
  have h1 := qemuDomainSaveInternal_rollback baseDom ⟨false, false, false⟩ saveFailEnv
    rfl rfl rfl rfl rfl rfl rfl rfl rfl rfl
  have h2 := qemuDomainSaveInternal_rollback baseDom ⟨false, false, false⟩
    saveFailResumeFailEnv rfl rfl rfl rfl rfl rfl rfl rfl rfl rfl
  exact ⟨h1.1, h1.2.1, h1.2.2.2.1 rfl, h2.2.2.2.2 rfl⟩

/-- C6: abort-job on a VM whose async job is inbound migration fails with an
OperationInvalid error directing the caller to destroy, and neither sets the
cancellation-requested flag nor issues the monitor migrate-cancel command;
likewise it fails with OperationInvalid ("no job is active on the domain")
when no async job is outstanding.  (`priv->job.dump_memory_only` is assumed
false; it is only ever set during a dump async job.) -/
theorem qemuDomainAbortJob_invalid (vm : Dom) (env : Env)
    (hA : vm.active = true) (hBJ : env.beginJobOK = true)
    (hA2 : env.activeAfterBeginJob = true) (hD : vm.dumpMemoryOnly = false) :
    (vm.asyncJob = QemuAsyncJob.migrationIn →
      (qemuDomainAbortJob vm env).ret = -1 ∧
      lastReported (qemuDomainAbortJob vm env).trace =
        some (VirErrCode.operationInvalid,
              "cannot abort incoming migration; use virDomainDestroy instead") ∧
      Act.abortAsyncJob ∉ (qemuDomainAbortJob vm env).trace ∧
      Act.monitorMigrateCancel ∉ (qemuDomainAbortJob vm env).trace ∧
      (∀ v, (qemuDomainAbortJob vm env).vm = some v →
          v.abortRequested = vm.abortRequested)) ∧
    (vm.asyncJob = QemuAsyncJob.none →
      (qemuDomainAbortJob vm env).ret = -1 ∧
      lastReported (qemuDomainAbortJob vm env).trace =
        some (VirErrCode.operationInvalid, "no job is active on the domain") ∧
      Act.abortAsyncJob ∉ (qemuDomainAbortJob vm env).trace ∧
      Act.monitorMigrateCancel ∉ (qemuDomainAbortJob vm env).trace) := by
  cases hE : env.endJobStillRef <;>
    rcases hAJ : vm.asyncJob <;>
      simp_all [qemuDomainAbortJob, endJobCleanup, cleanupUnlock, eventActs,
                lastReported]

/-- C6 witness: abort-job on a VM receiving an inbound migration fails with
the use-destroy error, with the cancellation flag untouched. -/
theorem c6_abort_migration_in_witness :
    (qemuDomainAbortJob { baseDom with asyncJob := QemuAsyncJob.migrationIn } allOkEnv).ret = -1 ∧
    lastReported (qemuDomainAbortJob { baseDom with asyncJob := QemuAsyncJob.migrationIn }
      allOkEnv).trace =
      some (VirErrCode.operationInvalid,
            "cannot abort incoming migration; use virDomainDestroy instead") ∧
    (qemuDomainAbortJob baseDom allOkEnv).ret = -1 := by
  have h1 := (qemuDomainAbortJob_invalid { baseDom with asyncJob := QemuAsyncJob.migrationIn }
    allOkEnv rfl rfl rfl rfl).1 rfl
  have h2 := (qemuDomainAbortJob_invalid baseDom allOkEnv rfl rfl rfl rfl).2 rfl
  exact ⟨h1.1, h1.2.1, h2.1⟩

/-- C7 counterexample.  `qemuDomainGetJobStats` on a VM with an outbound
migration in progress writes the refreshed elapsed time into
`priv->job.info.timeElapsed` itself (`virTimeMillisNow(&priv->job.info.timeElapsed)`
followed by `priv->job.info.timeElapsed -= priv->job.start`,
qemu_driver.c:11662-11664), so the VM's own progress metadata changes across
the call — refuting "the snapshot it returns is read-only with respect to the
job's progress metadata". -/
theorem c7_jobstats_mutates_progress :
    migOutDom.jobInfo.timeElapsed = 0 ∧
    (qemuDomainGetJobStats migOutDom allOkEnv).vm.jobInfo.timeElapsed = 5 ∧
    (qemuDomainGetJobStats migOutDom allOkEnv).vm.jobInfo ≠ migOutDom.jobInfo := by
  refine ⟨rfl, ?_, ?_⟩ <;> decide

/-- C7 (amended): neither job-progress query acquires a sync or async job of
its own (their traces contain no job acquisition, only the object lock and
unlock); on an active VM with no outstanding async job (or a memory-only
dump) both report job type NONE — get-job-stats with a null parameter list of
length 0, get-job-info with an all-zero info block; get-job-info never
modifies the VM (the elapsed-time refresh goes to the caller's copy); and
get-job-stats leaves the VM unchanged except that it refreshes the
`timeElapsed` field of the job progress metadata in place. -/
theorem jobProgressQuery_no_job_and_snapshot (vm : Dom) (env : Env) :
    (qemuDomainGetJobStats vm env).trace.all (fun a => !isJobAcq a) = true ∧
    (qemuDomainGetJobInfo vm env).trace.all (fun a => !isJobAcq a) = true ∧
    (vm.active = true → (vm.asyncJob = QemuAsyncJob.none ∨ vm.dumpMemoryOnly = true) →
      (qemuDomainGetJobStats vm env).ret = 0 ∧
      (qemuDomainGetJobStats vm env).jobType = some VIR_DOMAIN_JOB_NONE ∧
      (qemuDomainGetJobStats vm env).params = some [] ∧
      (qemuDomainGetJobStats vm env).nparams = some 0 ∧
      (qemuDomainGetJobInfo vm env).ret = 0 ∧
      (qemuDomainGetJobInfo vm env).info = some zeroJobInfo) ∧
    (qemuDomainGetJobInfo vm env).vm = vm ∧
    ((qemuDomainGetJobStats vm env).vm = vm ∨
     (qemuDomainGetJobStats vm env).vm =
       { vm with jobInfo :=
           { vm.jobInfo with timeElapsed := sub64 env.timeNow vm.jobStart } }) := by
  cases hA : vm.active <;> cases hT : env.timeOK <;> cases hD : vm.dumpMemoryOnly <;>
    rcases hAJ : vm.asyncJob <;>
      simp_all [qemuDomainGetJobStats, qemuDomainGetJobInfo, isJobAcq]

/-- C7 witness: on an active VM with no async job, get-job-stats returns type
NONE with an empty parameter block and acquires no job. -/
theorem c7_progress_query_witness :
    (qemuDomainGetJobStats baseDom allOkEnv).ret = 0 ∧
    (qemuDomainGetJobStats baseDom allOkEnv).jobType = some VIR_DOMAIN_JOB_NONE ∧
    (qemuDomainGetJobStats baseDom allOkEnv).nparams = some 0 ∧
    (qemuDomainGetJobStats baseDom allOkEnv).trace.all (fun a => !isJobAcq a) = true := by
  have h := jobProgressQuery_no_job_and_snapshot baseDom allOkEnv
  have h2 := h.2.2.1 rfl (Or.inl rfl)
  exact ⟨h2.1, h2.2.1, h2.2.2.2.1, h.1⟩

/-- C8 counterexample.  A fully successful save of a persistent running VM
reaches the `cleanup:` label of `qemuDomainSaveInternal` with the
STOPPED/SAVED event pending and the VM still locked, and that cleanup queues
the event *before* `virObjectUnlock` (qemu_driver.c:3139-3144) — refuting "on
every code path, the unlock of the VM object happens before the event-queue
delivery call". -/
theorem c8_save_queues_event_while_locked :
    (qemuDomainSaveInternal baseDom ⟨false, false, false⟩ false allOkEnv).ret = 0 ∧
    eventWhileLocked
      (qemuDomainSaveInternal baseDom ⟨false, false, false⟩ false allOkEnv).trace = true := by
  decide

/-- C8 (amended): suspend, resume, destroy and shutdown queue their lifecycle
events only after the delivering thread no longer holds the VM object lock
(their cleanup unlocks first, and when `end_job` reported the object gone no
lock exists); the save operation instead makes its event-queue call while
still holding the lock, immediately before the final unlock — after the
event-queue call, only unlock actions remain in its trace. -/
theorem eventDelivery_after_unlock (vm : Dom) (g : Bool) (sf : ShutdownFlags)
    (svf : SaveFlags) (xg : Bool) (env : Env) :
    eventWhileLocked (qemuDomainSuspend vm env).trace = false ∧
    eventWhileLocked (qemuDomainResume vm env).trace = false ∧
    eventWhileLocked (qemuDomainDestroyFlags vm g env).trace = false ∧
    eventWhileLocked (qemuDomainShutdownFlags vm sf env).trace = false ∧
    afterEventOnlyUnlock (qemuDomainSaveInternal vm svf xg env).trace = true := by
  refine ⟨?_, ?_, ?_, ?_, ?_⟩
  · simp only [eventWhileLocked, qemuDomainSuspend, apply_ite OpResult.trace,
               apply_ite (eventWhileLockedGo false)]
    simp [eventWhileLocked_cleanupUnlock, eventWhileLocked_endJobCleanup,
          List.all, isEventQueue]
  · simp only [eventWhileLocked, qemuDomainResume, apply_ite OpResult.trace,
               apply_ite (eventWhileLockedGo false)]
    simp [eventWhileLocked_cleanupUnlock, eventWhileLocked_endJobCleanup,
          List.all, isEventQueue]
  · cases hE : env.endJobStillRef <;>
      (simp only [eventWhileLocked, qemuDomainDestroyFlags, hE,
                  apply_ite OpResult.trace, apply_ite (eventWhileLockedGo false)]
       simp [eventWhileLocked_cleanupUnlock, eventWhileLocked_endJobCleanup,
             eventWhileLockedGo, stepHeld, List.all, isEventQueue])
  · cases hU : shutdownUseAgent vm sf <;>
      (simp only [eventWhileLocked, qemuDomainShutdownFlags, hU,
                  apply_ite OpResult.trace, apply_ite (eventWhileLockedGo false)]
       simp [eventWhileLocked_cleanupUnlock, eventWhileLocked_endJobCleanup,
             eventWhileLockedGo, stepHeld, List.all, isEventQueue, List.all_append])
  · simp only [qemuDomainSaveInternal, apply_ite OpResult.trace,
               apply_ite afterEventOnlyUnlock]
    simp [afterEvent_saveEndjob, afterEvent_saveAfterPause,
          afterEvent_cleanupSaveTail, List.all, isEventQueue]

/-- C9: abort-job is serialized through the synchronous job slot.  Its trace
obeys the discipline checker: a sync job is acquired at most once and only of
kind abort; the cancellation-requested flag is set and the monitor-level
migrate-cancel command issued only while that job is held; the cancel command
sits inside the monitor enter/exit guard; and the job is ended on every path.
Moreover the flag-set and the cancel command happen either both (in that
order) or not at all, and whenever the flag-set action appears the resulting
VM records cancellation as requested. -/
theorem qemuDomainAbortJob_sync_discipline (vm : Dom) (env : Env) :
    abortDiscipline (qemuDomainAbortJob vm env).trace = true ∧
    ((qemuDomainAbortJob vm env).trace.filter isCancelAct = [] ∨
     (qemuDomainAbortJob vm env).trace.filter isCancelAct =
       [Act.abortAsyncJob, Act.monitorMigrateCancel]) ∧
    (Act.abortAsyncJob ∈ (qemuDomainAbortJob vm env).trace →
      ∀ v, (qemuDomainAbortJob vm env).vm = some v → v.abortRequested = true) := by
  cases hB : env.beginJobOK <;> cases hE : env.endJobStillRef <;>
  cases hA : vm.active <;> cases hAA : env.activeAfterBeginJob <;>
  cases hD : vm.dumpMemoryOnly <;> rcases hAJ : vm.asyncJob <;>
    simp [qemuDomainAbortJob, qemuDomainObjAbortAsyncJob, endJobCleanup,
          cleanupUnlock, eventActs, abortDiscipline, abortDisciplineGo,
          isCancelAct, hB, hE, hA, hAA, hD, hAJ]

/-- C9 witness: aborting an outbound migration acquires the abort job, sets
the cancellation flag while holding it, cancels via the monitor guard, and
ends the job. -/
theorem c9_abort_discipline_witness :
    abortDiscipline (qemuDomainAbortJob migOutDom allOkEnv).trace = true ∧
    (qemuDomainAbortJob migOutDom allOkEnv).trace.filter isCancelAct =
      [Act.abortAsyncJob, Act.monitorMigrateCancel] ∧
    (∀ v, (qemuDomainAbortJob migOutDom allOkEnv).vm = some v →
        v.abortRequested = true) := by
  have h := qemuDomainAbortJob_sync_discipline migOutDom allOkEnv
  refine ⟨h.1, ?_, h.2.2 (by decide)⟩
  rcases h.2.1 with h2 | h2
  · exact absurd h2 (by decide)
  · exact h2

/-- C10: resume on an active VM whose state is neither `paused` nor
`pmsuspended` is a no-op success: it returns 0 without starting CPUs, without
changing any field of the VM, and without queueing a resumed event; only the
status file is rewritten.  Since the VM is returned unchanged, resuming an
already-running VM twice in a row succeeds both times with the state
untouched. -/
theorem qemuDomainResume_running_noop (vm : Dom) (env : Env)
    (hA : vm.active = true) (hBJ : env.beginJobOK = true)
    (hA2 : env.activeAfterBeginJob = true)
    (hNp : vm.state ≠ VirDomainState.paused)
    (hNpm : vm.state ≠ VirDomainState.pmsuspended)
    (hC : env.getCapsOK = true) (hSS : env.saveStatusOK = true) :
    (qemuDomainResume vm env).ret = 0 ∧
    (∀ v, (qemuDomainResume vm env).vm = some v → v = vm) ∧
    (qemuDomainResume vm env).trace.all (fun a => !isStartCPUs a) = true ∧
    (qemuDomainResume vm env).trace.all (fun a => !isEventQueue a) = true ∧
    Act.saveStatus ∈ (qemuDomainResume vm env).trace := by
  obtain ⟨a0, s0, pr0, rr0, pe0, op0, fr0, ag0, ae0, aj0, dm0, ab0, bd0, js0, ji0, jst0⟩ := vm
  cases hE : env.endJobStillRef <;>
    simp_all [qemuDomainResume, endJobCleanup, cleanupUnlock, eventActs,
              isStartCPUs, isEventQueue]

/-- C10 witness: resuming a running VM succeeds, changes nothing, and only
rewrites the status file. -/
theorem c10_resume_noop_witness :
    (qemuDomainResume baseDom allOkEnv).ret = 0 ∧
    (∀ v, (qemuDomainResume baseDom allOkEnv).vm = some v → v = baseDom) ∧
    Act.saveStatus ∈ (qemuDomainResume baseDom allOkEnv).trace := by
  have h := qemuDomainResume_running_noop baseDom allOkEnv rfl rfl rfl
    (by decide) (by decide) rfl rfl
  exact ⟨h.1, h.2.1, h.2.2.2.2⟩
